import Mathlib

/-!
Shallow embedding of `bevy_trimesh` (src/src/lib.rs): an adapter that
extracts vertex/index buffers from a bevy `Mesh`, validates their formats,
and builds parry3d `TriMesh` values, with a caching helper.

The source never computes on the floating-point coordinate values; it only
moves them (`Point::from_slice`, `clone`, a caller-supplied transform).  The
embedding is therefore parametric in the scalar type `R` standing for `f32`
(`parry3d::math::Real`); witnesses instantiate `R := Int`.  Index values
(`u32`/`u16`) are carried as `Nat`: the code performs no arithmetic on them.
-/

namespace BevyTrimesh

variable {R : Type}

/-- `parry3d::math::Point<Real>`: a 3D coordinate. -/
structure Point (R : Type) where
  x : R
  y : R
  z : R
  deriving DecidableEq, Repr

/-- `Point::from_slice(&[f32; 3])`: builds the point from the three slice
entries, element-wise, with no scaling or conversion. -/
def Point.from_slice (v : R × R × R) : Point R :=
  { x := v.1, y := v.2.1, z := v.2.2 }

/-- `bevy::render::mesh::VertexAttributeValues`: tagged union of vertex
attribute storage layouts.  The bevy enum has further normalized integer
variants (`Short2`, `Uchar4Norm`, ...); all non-`Float3` variants are
handled uniformly by the wildcard arm of `convert_verticies`, so a
representative subset suffices for the embedding. -/
inductive VertexAttributeValues (R : Type) where
  | Float (val : List R)
  | Int (val : List Int)
  | Uint (val : List Nat)
  | Float2 (val : List (R × R))
  | Int2 (val : List (Int × Int))
  | Uint2 (val : List (Nat × Nat))
  | Float3 (val : List (R × R × R))
  | Int3 (val : List (Int × Int × Int))
  | Uint3 (val : List (Nat × Nat × Nat))
  | Float4 (val : List (R × R × R × R))
  deriving DecidableEq

/-- `bevy::render::mesh::Indices`: tagged union of index storage widths. -/
inductive Indices where
  | U16 (val : List Nat)
  | U32 (val : List Nat)
  deriving DecidableEq

/-- A bevy `Mesh` as seen by this crate: named vertex attributes and an
optional index buffer.  `attribute` / `indices` mirror the accessors the
source calls. -/
structure Mesh (R : Type) where
  attributes : List (String × VertexAttributeValues R)
  indices : Option Indices

/-- `Mesh::ATTRIBUTE_POSITION`. -/
def Mesh.ATTRIBUTE_POSITION : String := "Vertex_Position"

/-- `mesh.attribute(name)`: look up a named vertex attribute. -/
def Mesh.attribute (mesh : Mesh R) (name : String) :
    Option (VertexAttributeValues R) :=
  (mesh.attributes.find? (fun p => p.1 == name)).map Prod.snd

/-- `ExtractGeometryError` from the source. -/
inductive ExtractGeometryError where
  | NoVertexPositionData
  | NoVertexIndicies
  deriving DecidableEq

/-- `UnsupportedFormatError(&'static str)` from the source. -/
structure UnsupportedFormatError where
  msg : String
  deriving DecidableEq

/-- `extract_geometry`: pull the position attribute and the index buffer out
of the mesh, failing on whichever is absent (position checked first). -/
def extract_geometry (mesh : Mesh R) :
    Except ExtractGeometryError (VertexAttributeValues R × Indices) := do
  let verticies ← match mesh.attribute Mesh.ATTRIBUTE_POSITION with
    | some v => Except.ok v
    | none => Except.error ExtractGeometryError.NoVertexPositionData
  let indicies ← match mesh.indices with
    | some i => Except.ok i
    | none => Except.error ExtractGeometryError.NoVertexIndicies
  Except.ok (verticies, indicies)

/-- `convert_verticies`: accept only the `Float3` variant, mapping each entry
through `Point::from_slice`; any other variant is the unsupported-format
error.  The lazy iterator is embedded as the list of its elements. -/
def convert_verticies (verticies : VertexAttributeValues R) :
    Except UnsupportedFormatError (List (Point R)) :=
  match verticies with
  | VertexAttributeValues.Float3 val =>
      Except.ok (val.map Point.from_slice)
  | _ => Except.error ⟨"only [f32; 3] is supported"⟩

/-- `<[u32]>::array_chunks::<3>()`: consecutive non-overlapping groups of
three, the trailing partial group (if any) silently dropped. -/
def array_chunks3 : List Nat → List (Nat × Nat × Nat)
  | a :: b :: c :: rest => (a, b, c) :: array_chunks3 rest
  | _ => []

/-- `convert_indicies`: accept only the `U32` variant, chunking the flat
sequence into triples; any other variant is the unsupported-format error. -/
def convert_indicies (indicies : Indices) :
    Except UnsupportedFormatError (List (Nat × Nat × Nat)) :=
  match indicies with
  | Indices.U32 val => Except.ok (array_chunks3 val)
  | _ => Except.error ⟨"only u32 is supported"⟩

/-- `TriMeshBuildError` from the source (the `Extracion` spelling is the
source's). -/
inductive TriMeshBuildError where
  | Extracion (e : ExtractGeometryError)
  | UnsupportedVerexDataFormat (e : UnsupportedFormatError)
  | UnsupportedIndexFormat (e : UnsupportedFormatError)
  deriving DecidableEq

/-- `prepare_trimesh_from_mesh`: extraction, then vertex conversion, then
index conversion, each failure wrapped in its `TriMeshBuildError` variant. -/
def prepare_trimesh_from_mesh (mesh : Mesh R) :
    Except TriMeshBuildError (List (Point R) × List (Nat × Nat × Nat)) := do
  let (verticies, indicies) ←
    (extract_geometry mesh).mapError TriMeshBuildError.Extracion
  let verticies ←
    (convert_verticies verticies).mapError
      TriMeshBuildError.UnsupportedVerexDataFormat
  let indicies ←
    (convert_indicies indicies).mapError TriMeshBuildError.UnsupportedIndexFormat
  Except.ok (verticies, indicies)

/-- `parry3d::shape::TriMesh`, viewed through the only operation this crate
performs on it: construction from a vertex buffer and an index buffer. -/
structure TriMesh (R : Type) where
  vertices : List (Point R)
  indices : List (Nat × Nat × Nat)
  deriving DecidableEq

/-- `TriMesh::new(vertices, indices)`. -/
def TriMesh.new (vertices : List (Point R))
    (indices : List (Nat × Nat × Nat)) : TriMesh R :=
  { vertices := vertices, indices := indices }

/-- `trimesh_from_mesh`: one-shot build. -/
def trimesh_from_mesh (mesh : Mesh R) : Except TriMeshBuildError (TriMesh R) := do
  let (verticies, indicies) ← prepare_trimesh_from_mesh mesh
  Except.ok (TriMesh.new verticies indicies)

/-- `CachedTriMeshBuilder`: the materialized vertex and index buffers. -/
structure CachedTriMeshBuilder (R : Type) where
  verticies : List (Point R)
  indicies : List (Nat × Nat × Nat)
  deriving DecidableEq

/-- `CachedTriMeshBuilder::from_mesh`: run the preparer and collect both
sequences into the cache. -/
def CachedTriMeshBuilder.from_mesh (mesh : Mesh R) :
    Except TriMeshBuildError (CachedTriMeshBuilder R) := do
  let (verticies, indicies) ← prepare_trimesh_from_mesh mesh
  Except.ok { verticies := verticies, indicies := indicies }

/-- `CachedTriMeshBuilder::build`: a new `TriMesh` from clones of the cached
buffers (cloning is the identity on values). -/
def CachedTriMeshBuilder.build (self : CachedTriMeshBuilder R) : TriMesh R :=
  TriMesh.new self.verticies self.indicies

/-- `CachedTriMeshBuilder::build_with_vertex_transform`: apply `transform`
to every cached vertex, clone the index buffer verbatim. -/
def CachedTriMeshBuilder.build_with_vertex_transform
    (self : CachedTriMeshBuilder R) (transform : Point R → Point R) : TriMesh R :=
  TriMesh.new (self.verticies.map transform) self.indicies

/-- Translation of a point by a fixed vector, used to state the spec's
transform-correctness property (the transform itself is caller-supplied;
the source never adds coordinates). -/
def Point.translate [Add R] (p : Point R) (v : Point R) : Point R :=
  { x := p.x + v.x, y := p.y + v.y, z := p.z + v.z }

/-- Flatten a triple list back to a flat index sequence; used to state that
`array_chunks3` partitions its input in order. -/
def triples_flatten : List (Nat × Nat × Nat) → List Nat
  | [] => []
  | (a, b, c) :: rest => a :: b :: c :: triples_flatten rest

/-- Discriminator for the supported vertex variant (`Float3`). -/
def VertexAttributeValues.is_float3 : VertexAttributeValues R → Bool
  | VertexAttributeValues.Float3 _ => true
  | _ => false

/-- Discriminator for the supported index variant (`U32`). -/
def Indices.is_u32 : Indices → Bool
  | Indices.U32 _ => true
  | _ => false

/-! Helper lemmas about `array_chunks3`. -/

theorem getElem?_cons3 (a b c : Nat) (l : List Nat) (n : Nat) :
    (a :: b :: c :: l)[n + 3]? = l[n]? := by
  rw [show n + 3 = n + 2 + 1 from rfl, List.getElem?_cons_succ,
    show n + 2 = n + 1 + 1 from rfl, List.getElem?_cons_succ,
    List.getElem?_cons_succ]

theorem take_cons3 (a b c : Nat) (l : List Nat) (n : Nat) :
    (a :: b :: c :: l).take (n + 3) = a :: b :: c :: l.take n := by
  rw [show n + 3 = n + 2 + 1 from rfl, List.take_succ_cons,
    show n + 2 = n + 1 + 1 from rfl, List.take_succ_cons,
    List.take_succ_cons]

theorem array_chunks3_length :
    ∀ l : List Nat, (array_chunks3 l).length = l.length / 3
  | [] => by simp [array_chunks3]
  | [_] => by simp [array_chunks3]
  | [_, _] => by simp [array_chunks3]
  | _ :: _ :: _ :: rest => by
      have ih := array_chunks3_length rest
      simp [array_chunks3, ih]
      omega

theorem array_chunks3_getElem? :
    ∀ (l : List Nat) (k : Nat),
      (array_chunks3 l)[k]? =
        (l[3 * k]?).bind (fun a => (l[3 * k + 1]?).bind (fun b =>
          (l[3 * k + 2]?).map (fun c => (a, b, c))))
  | [], k => by simp [array_chunks3]
  | [a], k => by
      rcases k with _ | k
      · simp [array_chunks3]
      · have h1 : ([a] : List Nat)[3 * (k + 1)]? = none :=
          List.getElem?_eq_none (by simp; omega)
        simp [array_chunks3, h1]
  | [a, b], k => by
      rcases k with _ | k
      · simp [array_chunks3]
      · have h1 : ([a, b] : List Nat)[3 * (k + 1)]? = none :=
          List.getElem?_eq_none (by simp; omega)
        simp [array_chunks3, h1]
  | a :: b :: c :: rest, 0 => by simp [array_chunks3]
  | a :: b :: c :: rest, k + 1 => by
      have ih := array_chunks3_getElem? rest k
      rw [show 3 * (k + 1) = 3 * k + 3 from by ring,
        show 3 * k + 3 + 1 = (3 * k + 1) + 3 from by ring,
        show 3 * k + 3 + 2 = (3 * k + 2) + 3 from by ring,
        getElem?_cons3, getElem?_cons3, getElem?_cons3]
      simpa [array_chunks3] using ih

theorem triples_flatten_array_chunks3 :
    ∀ l : List Nat,
      triples_flatten (array_chunks3 l) = l.take (3 * (l.length / 3))
  | [] => by simp [array_chunks3, triples_flatten]
  | [a] => by simp [array_chunks3, triples_flatten]
  | [a, b] => by simp [array_chunks3, triples_flatten]
  | a :: b :: c :: rest => by
      have ih := triples_flatten_array_chunks3 rest
      have hlen : (a :: b :: c :: rest).length / 3 = rest.length / 3 + 1 := by
        simp
        omega
      rw [hlen, show 3 * (rest.length / 3 + 1) = 3 * (rest.length / 3) + 3
        from by ring, take_cons3]
      simp [array_chunks3, triples_flatten, ih]

/-! Claim theorems. -/

/-- C1: a `Float3` vertex buffer with N entries converts successfully to
exactly N points, in input order, each point element-wise equal to the
corresponding entry (no scaling or conversion); every other variant fails
with `UnsupportedFormatError("only [f32; 3] is supported")`. -/
theorem convert_verticies_correct {R : Type} (v : VertexAttributeValues R) :
    (∀ val : List (R × R × R), v = VertexAttributeValues.Float3 val →
      convert_verticies v = Except.ok (val.map Point.from_slice) ∧
      (val.map Point.from_slice).length = val.length ∧
      (∀ k : Nat,
        (val.map Point.from_slice)[k]? = (val[k]?).map Point.from_slice) ∧
      (∀ e : R × R × R, (Point.from_slice e).x = e.1 ∧
        (Point.from_slice e).y = e.2.1 ∧ (Point.from_slice e).z = e.2.2)) ∧
    (v.is_float3 = false →
      convert_verticies v = Except.error ⟨"only [f32; 3] is supported"⟩) := by
  constructor
  · rintro val rfl
    refine ⟨rfl, by simp, fun k => by simp, fun e => ⟨rfl, rfl, rfl⟩⟩
  · intro h
    cases v <;> simp_all [convert_verticies, VertexAttributeValues.is_float3]

/-- Witness for C1 at concrete inputs. -/
theorem convert_verticies_correct_witness :
    convert_verticies (R := Int)
        (VertexAttributeValues.Float3 [(1, 2, 3), (4, 5, 6)]) =
      Except.ok ([((1 : Int), (2 : Int), (3 : Int)), (4, 5, 6)].map
        Point.from_slice) ∧
    convert_verticies (R := Int) (VertexAttributeValues.Float2 [(7, 8)]) =
      Except.error ⟨"only [f32; 3] is supported"⟩ :=
  ⟨((convert_verticies_correct _).1 _ rfl).1,
    (convert_verticies_correct _).2 rfl⟩

/-- C2: a `U32` index buffer of flat length 3K converts successfully to
exactly K triples, the partition of the flat sequence into consecutive
non-overlapping groups of three in input order; every other variant fails
with `UnsupportedFormatError("only u32 is supported")`. -/
theorem convert_indicies_correct (i : Indices) :
    (∀ (val : List Nat) (K : Nat),
      i = Indices.U32 val → val.length = 3 * K →
      convert_indicies i = Except.ok (array_chunks3 val) ∧
      (array_chunks3 val).length = K ∧
      triples_flatten (array_chunks3 val) = val ∧
      (∀ k : Nat, (array_chunks3 val)[k]? =
        (val[3 * k]?).bind (fun a => (val[3 * k + 1]?).bind (fun b =>
          (val[3 * k + 2]?).map (fun c => (a, b, c)))))) ∧
    (i.is_u32 = false →
      convert_indicies i = Except.error ⟨"only u32 is supported"⟩) := by
  constructor
  · rintro val K rfl hlen
    refine ⟨rfl, ?_, ?_, fun k => array_chunks3_getElem? val k⟩
    · rw [array_chunks3_length, hlen]
      omega
    · rw [triples_flatten_array_chunks3, hlen,
        show 3 * (3 * K / 3) = 3 * K from by omega, ← hlen, List.take_length]
  · intro h
    cases i <;> simp_all [convert_indicies, Indices.is_u32]

/-- Witness for C2 at concrete inputs. -/
theorem convert_indicies_correct_witness :
    convert_indicies (Indices.U32 [1, 2, 3, 4, 5, 6]) =
      Except.ok (array_chunks3 [1, 2, 3, 4, 5, 6]) ∧
    (array_chunks3 [1, 2, 3, 4, 5, 6]).length = 2 ∧
    convert_indicies (Indices.U16 [1, 2, 3]) =
      Except.error ⟨"only u32 is supported"⟩ :=
  ⟨((convert_indicies_correct _).1 [1, 2, 3, 4, 5, 6] 2 rfl (by decide)).1,
    ((convert_indicies_correct _).1 [1, 2, 3, 4, 5, 6] 2 rfl (by decide)).2.1,
    (convert_indicies_correct _).2 rfl⟩

/-- C8: a `U32` index buffer of flat length 3K + r with r in {1, 2} still
converts successfully, yielding exactly K triples and silently discarding
the trailing r indices (no validation, error, or report). -/
theorem convert_indicies_partial_chunk (val : List Nat) (K r : Nat)
    (hr : r = 1 ∨ r = 2) (hlen : val.length = 3 * K + r) :
    convert_indicies (Indices.U32 val) = Except.ok (array_chunks3 val) ∧
    (array_chunks3 val).length = K ∧
    triples_flatten (array_chunks3 val) = val.take (3 * K) := by
  refine ⟨rfl, ?_, ?_⟩
  · rw [array_chunks3_length, hlen]
    omega
  · rcases hr with rfl | rfl
    · rw [triples_flatten_array_chunks3, hlen,
        show 3 * ((3 * K + 1) / 3) = 3 * K from by omega]
    · rw [triples_flatten_array_chunks3, hlen,
        show 3 * ((3 * K + 2) / 3) = 3 * K from by omega]

/-- Witness for C8: a 4-element buffer yields one triple, dropping the
fourth index. -/
theorem convert_indicies_partial_chunk_witness :
    convert_indicies (Indices.U32 [1, 2, 3, 4]) =
      Except.ok (array_chunks3 [1, 2, 3, 4]) ∧
    (array_chunks3 [1, 2, 3, 4]).length = 1 ∧
    triples_flatten (array_chunks3 [1, 2, 3, 4]) = [1, 2, 3, 4].take (3 * 1) :=
  convert_indicies_partial_chunk [1, 2, 3, 4] 1 1 (Or.inl rfl) (by decide)

/-- C7: extraction fails with `NoVertexPositionData` whenever the position
attribute is absent, whatever the index buffer (which is never consulted);
with a position attribute but no index buffer it fails with
`NoVertexIndicies`; with both present it succeeds, returning the two
buffers unchanged. -/
theorem extract_geometry_correct {R : Type} (mesh : Mesh R) :
    (mesh.attribute Mesh.ATTRIBUTE_POSITION = none →
      ∀ idx : Option Indices,
        extract_geometry { mesh with indices := idx } =
          Except.error ExtractGeometryError.NoVertexPositionData) ∧
    (∀ vb, mesh.attribute Mesh.ATTRIBUTE_POSITION = some vb →
      mesh.indices = none →
      extract_geometry mesh =
        Except.error ExtractGeometryError.NoVertexIndicies) ∧
    (∀ vb ib, mesh.attribute Mesh.ATTRIBUTE_POSITION = some vb →
      mesh.indices = some ib →
      extract_geometry mesh = Except.ok (vb, ib)) := by
  refine ⟨fun h idx => ?_, fun vb hvb hidx => ?_, fun vb ib hvb hidx => ?_⟩
  · simp only [Mesh.attribute] at h
    simp [extract_geometry, Mesh.attribute, h, Bind.bind, Except.bind]
  · simp [extract_geometry, hvb, hidx, Bind.bind, Except.bind]
  · simp [extract_geometry, hvb, hidx, Bind.bind, Except.bind]

/-- Witness for C7 at three concrete meshes. -/
theorem extract_geometry_correct_witness :
    extract_geometry (R := Int)
        { attributes := [], indices := some (Indices.U16 [0]) } =
      Except.error ExtractGeometryError.NoVertexPositionData ∧
    extract_geometry (R := Int)
        { attributes := [(Mesh.ATTRIBUTE_POSITION,
            VertexAttributeValues.Float3 [(0, 0, 0)])], indices := none } =
      Except.error ExtractGeometryError.NoVertexIndicies ∧
    extract_geometry (R := Int)
        { attributes := [(Mesh.ATTRIBUTE_POSITION,
            VertexAttributeValues.Float3 [(0, 0, 0)])],
          indices := some (Indices.U32 [0, 1, 2]) } =
      Except.ok (VertexAttributeValues.Float3 [(0, 0, 0)],
        Indices.U32 [0, 1, 2]) :=
  ⟨(extract_geometry_correct
      { attributes := [], indices := none }).1 rfl (some (Indices.U16 [0])),
    (extract_geometry_correct _).2.1 _ rfl rfl,
    (extract_geometry_correct _).2.2 _ _ rfl rfl⟩

/-- C3: a mesh with a supported `Float3` position attribute but a `U16`
index buffer makes `prepare_trimesh_from_mesh`, `trimesh_from_mesh` and
`CachedTriMeshBuilder::from_mesh` all fail with `UnsupportedIndexFormat`
(wrapping the index-converter error), not `UnsupportedVerexDataFormat`. -/
theorem index_format_error_wins {R : Type} (mesh : Mesh R)
    (val : List (R × R × R)) (idxs : List Nat)
    (hpos : mesh.attribute Mesh.ATTRIBUTE_POSITION =
      some (VertexAttributeValues.Float3 val))
    (hidx : mesh.indices = some (Indices.U16 idxs)) :
    prepare_trimesh_from_mesh mesh =
      Except.error (TriMeshBuildError.UnsupportedIndexFormat
        ⟨"only u32 is supported"⟩) ∧
    trimesh_from_mesh mesh =
      Except.error (TriMeshBuildError.UnsupportedIndexFormat
        ⟨"only u32 is supported"⟩) ∧
    CachedTriMeshBuilder.from_mesh mesh =
      Except.error (TriMeshBuildError.UnsupportedIndexFormat
        ⟨"only u32 is supported"⟩) := by
  have hprep : prepare_trimesh_from_mesh mesh =
      Except.error (TriMeshBuildError.UnsupportedIndexFormat
        ⟨"only u32 is supported"⟩) := by
    simp [prepare_trimesh_from_mesh, extract_geometry, hpos, hidx,
      convert_verticies, convert_indicies, Except.mapError, Bind.bind,
      Except.bind]
  exact ⟨hprep, by simp [trimesh_from_mesh, hprep, Bind.bind, Except.bind],
    by simp [CachedTriMeshBuilder.from_mesh, hprep, Bind.bind, Except.bind]⟩

/-- Witness for C3 at a concrete mesh. -/
theorem index_format_error_wins_witness :
    prepare_trimesh_from_mesh (R := Int)
        { attributes := [(Mesh.ATTRIBUTE_POSITION,
            VertexAttributeValues.Float3 [(0, 0, 0)])],
          indices := some (Indices.U16 [0, 1, 2]) } =
      Except.error (TriMeshBuildError.UnsupportedIndexFormat
        ⟨"only u32 is supported"⟩) ∧
    trimesh_from_mesh (R := Int)
        { attributes := [(Mesh.ATTRIBUTE_POSITION,
            VertexAttributeValues.Float3 [(0, 0, 0)])],
          indices := some (Indices.U16 [0, 1, 2]) } =
      Except.error (TriMeshBuildError.UnsupportedIndexFormat
        ⟨"only u32 is supported"⟩) ∧
    CachedTriMeshBuilder.from_mesh (R := Int)
        { attributes := [(Mesh.ATTRIBUTE_POSITION,
            VertexAttributeValues.Float3 [(0, 0, 0)])],
          indices := some (Indices.U16 [0, 1, 2]) } =
      Except.error (TriMeshBuildError.UnsupportedIndexFormat
        ⟨"only u32 is supported"⟩) :=
  index_format_error_wins _ [(0, 0, 0)] [0, 1, 2] rfl rfl

/-- C9: when the position attribute is present but in an unsupported vertex
format and the index buffer is present but in an unsupported index format,
`prepare_trimesh_from_mesh` fails with `UnsupportedVerexDataFormat`: vertex
conversion runs before index conversion, so the vertex error wins. -/
theorem vertex_format_error_wins {R : Type} (mesh : Mesh R)
    (vb : VertexAttributeValues R) (ib : Indices)
    (hpos : mesh.attribute Mesh.ATTRIBUTE_POSITION = some vb)
    (hvb : vb.is_float3 = false)
    (hidx : mesh.indices = some ib) (_hib : ib.is_u32 = false) :
    prepare_trimesh_from_mesh mesh =
      Except.error (TriMeshBuildError.UnsupportedVerexDataFormat
        ⟨"only [f32; 3] is supported"⟩) := by
  cases vb <;>
    simp_all [prepare_trimesh_from_mesh, extract_geometry, convert_verticies,
      VertexAttributeValues.is_float3, Except.mapError, Bind.bind, Except.bind]

/-- Witness for C9 at a concrete mesh (Float2 position, U16 indices). -/
theorem vertex_format_error_wins_witness :
    prepare_trimesh_from_mesh (R := Int)
        { attributes := [(Mesh.ATTRIBUTE_POSITION,
            VertexAttributeValues.Float2 [(0, 0)])],
          indices := some (Indices.U16 [0, 1, 2]) } =
      Except.error (TriMeshBuildError.UnsupportedVerexDataFormat
        ⟨"only [f32; 3] is supported"⟩) :=
  vertex_format_error_wins _ (VertexAttributeValues.Float2 [(0, 0)])
    (Indices.U16 [0, 1, 2]) rfl rfl rfl rfl

/-- C10: preparation succeeds for every mesh with a `Float3` position buffer
and a `U32` index buffer, whatever the buffer contents — empty buffers and
out-of-range index values included — and the cache stores exactly the
converted contents, unchanged and unvalidated. -/
theorem prepare_no_content_validation {R : Type} (mesh : Mesh R)
    (val : List (R × R × R)) (idxs : List Nat)
    (hpos : mesh.attribute Mesh.ATTRIBUTE_POSITION =
      some (VertexAttributeValues.Float3 val))
    (hidx : mesh.indices = some (Indices.U32 idxs)) :
    prepare_trimesh_from_mesh mesh =
      Except.ok (val.map Point.from_slice, array_chunks3 idxs) ∧
    CachedTriMeshBuilder.from_mesh mesh =
      Except.ok ⟨val.map Point.from_slice, array_chunks3 idxs⟩ := by
  have hprep : prepare_trimesh_from_mesh mesh =
      Except.ok (val.map Point.from_slice, array_chunks3 idxs) := by
    simp [prepare_trimesh_from_mesh, extract_geometry, hpos, hidx,
      convert_verticies, convert_indicies, Except.mapError, Bind.bind,
      Except.bind]
  exact ⟨hprep,
    by simp [CachedTriMeshBuilder.from_mesh, hprep, Bind.bind, Except.bind]⟩

/-- Witness for C10: an empty vertex buffer with out-of-range indices is
accepted and cached unchanged. -/
theorem prepare_no_content_validation_witness :
    prepare_trimesh_from_mesh (R := Int)
        { attributes := [(Mesh.ATTRIBUTE_POSITION,
            VertexAttributeValues.Float3 [])],
          indices := some (Indices.U32 [7, 8, 9]) } =
      Except.ok (([] : List (Int × Int × Int)).map Point.from_slice,
        array_chunks3 [7, 8, 9]) ∧
    CachedTriMeshBuilder.from_mesh (R := Int)
        { attributes := [(Mesh.ATTRIBUTE_POSITION,
            VertexAttributeValues.Float3 [])],
          indices := some (Indices.U32 [7, 8, 9]) } =
      Except.ok ⟨([] : List (Int × Int × Int)).map Point.from_slice,
        array_chunks3 [7, 8, 9]⟩ :=
  prepare_no_content_validation _ [] [7, 8, 9] rfl rfl

/-- C4: whenever preparation succeeds, the one-shot builder and the cached
path construct their `TriMesh` from identical vertex and index buffers. -/
theorem builders_agree {R : Type} (mesh : Mesh R) (vs : List (Point R))
    (ixs : List (Nat × Nat × Nat))
    (h : prepare_trimesh_from_mesh mesh = Except.ok (vs, ixs)) :
    trimesh_from_mesh mesh = Except.ok (TriMesh.new vs ixs) ∧
    (CachedTriMeshBuilder.from_mesh mesh).map
      CachedTriMeshBuilder.build = Except.ok (TriMesh.new vs ixs) := by
  constructor <;>
    simp [trimesh_from_mesh, CachedTriMeshBuilder.from_mesh, h,
      CachedTriMeshBuilder.build, Except.map, TriMesh.new, Bind.bind,
      Except.bind]

/-- Witness for C4: the spec's triangle — vertices (0,0,0), (1,0,0), (0,1,0)
and indices [0, 1, 2] — yields, on both paths, a mesh with exactly one
triangle referencing those three points in that order. -/
theorem builders_agree_witness :
    trimesh_from_mesh (R := Int)
        { attributes := [(Mesh.ATTRIBUTE_POSITION,
            VertexAttributeValues.Float3 [(0, 0, 0), (1, 0, 0), (0, 1, 0)])],
          indices := some (Indices.U32 [0, 1, 2]) } =
      Except.ok (TriMesh.new [⟨0, 0, 0⟩, ⟨1, 0, 0⟩, ⟨0, 1, 0⟩] [(0, 1, 2)]) ∧
    (CachedTriMeshBuilder.from_mesh (R := Int)
        { attributes := [(Mesh.ATTRIBUTE_POSITION,
            VertexAttributeValues.Float3 [(0, 0, 0), (1, 0, 0), (0, 1, 0)])],
          indices := some (Indices.U32 [0, 1, 2]) }).map
      CachedTriMeshBuilder.build =
      Except.ok (TriMesh.new [⟨0, 0, 0⟩, ⟨1, 0, 0⟩, ⟨0, 1, 0⟩] [(0, 1, 2)]) :=
  builders_agree _ [⟨0, 0, 0⟩, ⟨1, 0, 0⟩, ⟨0, 1, 0⟩] [(0, 1, 2)] rfl

/-- C5: `build_with_vertex_transform` with the identity function equals
`build()`; with translation by a fixed vector `v`, every output vertex is
the corresponding cached vertex plus `v` (order preserved, one application
per vertex) and the index buffer is copied verbatim. -/
theorem build_with_vertex_transform_correct {R : Type} [Add R]
    (b : CachedTriMeshBuilder R) (v : Point R) :
    b.build_with_vertex_transform (fun p => p) = b.build ∧
    (b.build_with_vertex_transform (fun p => p.translate v)).vertices =
      b.verticies.map (fun p => p.translate v) ∧
    (∀ k : Nat,
      ((b.build_with_vertex_transform (fun p => p.translate v)).vertices)[k]? =
        (b.verticies[k]?).map (fun p => p.translate v)) ∧
    (b.build_with_vertex_transform (fun p => p.translate v)).indices =
      b.indicies := by
  refine ⟨?_, rfl, fun k => ?_, rfl⟩
  · simp [CachedTriMeshBuilder.build_with_vertex_transform,
      CachedTriMeshBuilder.build, TriMesh.new]
  · simp [CachedTriMeshBuilder.build_with_vertex_transform, TriMesh.new]

/-- C6: the cache is never modified: both build operations are pure reads of
the two cached buffers, each producing a `TriMesh` whose components equal
fresh copies of those buffers; caches with equal buffers give equal outputs,
so repeated calls yield identical results. -/
theorem cached_builder_immutable {R : Type} (b : CachedTriMeshBuilder R)
    (f : Point R → Point R) :
    b.build = TriMesh.new b.verticies b.indicies ∧
    (b.build).vertices = b.verticies ∧
    (b.build).indices = b.indicies ∧
    b.build_with_vertex_transform f =
      TriMesh.new (b.verticies.map f) b.indicies ∧
    (∀ b₂ : CachedTriMeshBuilder R, b₂.verticies = b.verticies →
      b₂.indicies = b.indicies →
      b₂.build = b.build ∧
      b₂.build_with_vertex_transform f = b.build_with_vertex_transform f) := by
  refine ⟨rfl, rfl, rfl, rfl, fun b₂ hv hi => ?_⟩
  constructor <;>
    simp [CachedTriMeshBuilder.build,
      CachedTriMeshBuilder.build_with_vertex_transform, TriMesh.new, hv, hi]

/-- Witness for C6 at a concrete cache. -/
theorem cached_builder_immutable_witness :
    (CachedTriMeshBuilder.build (R := Int) ⟨[⟨1, 2, 3⟩], [(0, 1, 2)]⟩ =
      TriMesh.new [⟨1, 2, 3⟩] [(0, 1, 2)]) ∧
    (CachedTriMeshBuilder.build (R := Int) ⟨[⟨1, 2, 3⟩], [(0, 1, 2)]⟩ =
      CachedTriMeshBuilder.build (R := Int) ⟨[⟨1, 2, 3⟩], [(0, 1, 2)]⟩) :=
  ⟨(cached_builder_immutable ⟨[⟨1, 2, 3⟩], [(0, 1, 2)]⟩ (fun p => p)).1,
    ((cached_builder_immutable (R := Int) ⟨[⟨1, 2, 3⟩], [(0, 1, 2)]⟩
      (fun p => p)).2.2.2.2 ⟨[⟨1, 2, 3⟩], [(0, 1, 2)]⟩ rfl rfl).1⟩

end BevyTrimesh
